import Mathlib

/-!
Shallow embedding of the heartDetection diagnostic pipeline
(`app/services/model_service.py` and `app/services/ocr_service.py`).

Python strings are modelled as `List Char`, Python floats as `ℚ`
(values parsed from decimal text are exact rationals), Python dicts of
measurements as insertion-ordered association lists, and raised
exceptions as `Except PyErr`.  External effects (model files, network,
object storage, the OCR service) are abstracted as oracle functions
passed in an `Env`; everything the repository computes from their
answers is translated directly from the source.
-/

/-- A Python `str`, modelled as its list of characters. -/
abbrev Str := List Char

/-- The exception classes the embedded code can raise. -/
inductive PyErr
  | typeError
  | valueError
  | fileNotFound
  | runtime
deriving DecidableEq, Repr

/-- Numeric value of a list of decimal digit characters. -/
def digitsToNat (l : Str) : ℕ :=
  l.foldl (fun a c => a * 10 + (c.toNat - 48)) 0

/-- Value of a decimal literal with integer part `ip` and fractional part `fp`. -/
def decimalValue (ip fp : Str) : ℚ :=
  (digitsToNat ip : ℚ) + (digitsToNat fp : ℚ) / (10 : ℚ) ^ fp.length

/-- Python `float(s)` for the strings matched by the `[\d.]+` capture groups:
digits with at most one dot; `none` models the `ValueError` raise. -/
def pyFloat (s : Str) : Option ℚ :=
  match s.splitOn '.' with
  | [ip] => if ip ≠ [] ∧ ip.all Char.isDigit then some (digitsToNat ip) else none
  | [ip, fp] =>
    if (ip ≠ [] ∨ fp ≠ []) ∧ ip.all Char.isDigit ∧ fp.all Char.isDigit then
      some (decimalValue ip fp)
    else none
  | _ => none

/-- Python `int(x)` on a float: truncation toward zero. -/
def pyInt (q : ℚ) : ℤ := if 0 ≤ q then ⌊q⌋ else -⌊-q⌋

/-- Python `round(x)`: round half to even. -/
def pyRound (q : ℚ) : ℤ :=
  let f := ⌊q⌋
  let r := q - (f : ℚ)
  if r < 1 / 2 then f
  else if 1 / 2 < r then f + 1
  else if f % 2 = 0 then f else f + 1

/-- Number of occurrences of `needle` as a contiguous substring, counted by
starting position. -/
def countOcc (needle : Str) : Str → ℕ
  | [] => 0
  | c :: rest => (if needle <+: (c :: rest) then 1 else 0) + countOcc needle rest

/-- A Python `dict` update / the repository's DetectionImage upsert on an
association list keyed by integer: replace in place if the key exists,
otherwise append. -/
def upsertAssoc (l : List (ℕ × String)) (k : ℕ) (v : String) : List (ℕ × String) :=
  if l.any (fun p => p.1 = k) then l.map (fun p => if p.1 = k then (k, v) else p)
  else l ++ [(k, v)]

/-- A parsed measurement dictionary: parameter name to numeric value,
in insertion order. -/
abbrev Measurements := List (String × ℚ)

/-- `measurements.get(k)` / `k in measurements` lookup. -/
def mlookup (m : Measurements) (k : String) : Option ℚ :=
  (m.find? (fun p => p.1 = k)).map Prod.snd

theorem mlookup_append (a b : Measurements) (k : String) :
    mlookup (a ++ b) k = ((mlookup a k).rec (mlookup b k) (fun v => some v)) := by
  unfold mlookup
  rw [List.find?_append]
  cases a.find? (fun p => p.1 = k) <;> rfl

theorem mlookup_append_of_none (a b : Measurements) (k : String)
    (h : mlookup a k = none) : mlookup (a ++ b) k = mlookup b k := by
  rw [mlookup_append, h]

theorem mlookup_append_of_some (a b : Measurements) (k : String) (v : ℚ)
    (h : mlookup a k = some v) : mlookup (a ++ b) k = some v := by
  rw [mlookup_append, h]

theorem prefix_append_iff_of_le (l t s : Str) (h : l.length ≤ s.length) :
    (l <+: s ++ t) ↔ l <+: s := by
  rw [List.prefix_iff_eq_take, List.prefix_iff_eq_take,
    List.take_append_eq_append_take, Nat.sub_eq_zero_of_le h, List.take_zero,
    List.append_nil]

theorem countOcc_append (needle s t : Str)
    (hspan : ∀ k, k < needle.length → 0 < k → ¬ (needle.drop k <+: t)) :
    countOcc needle (s ++ t) = countOcc needle s + countOcc needle t := by
  induction s with
  | nil => simp [countOcc]
  | cons c cs ih =>
    rw [List.cons_append]
    show (if needle <+: (c :: cs) ++ t then 1 else 0) + countOcc needle (cs ++ t) =
      ((if needle <+: c :: cs then 1 else 0) + countOcc needle cs) + countOcc needle t
    rcases le_or_lt needle.length (c :: cs).length with hle | hgt
    · rw [if_congr (prefix_append_iff_of_le needle t (c :: cs) hle) rfl rfl, ih]
      omega
    · have h1 : ¬ needle <+: c :: cs := fun hp => absurd hp.length_le (by omega)
      have h2 : ¬ needle <+: (c :: cs) ++ t := by
        intro hp
        have heq : needle = (c :: cs) ++ t.take (needle.length - (c :: cs).length) := by
          have := List.prefix_iff_eq_take.mp hp
          rw [List.take_append_eq_append_take,
            List.take_of_length_le (le_of_lt hgt)] at this
          exact this
        have hdrop : needle.drop (c :: cs).length =
            t.take (needle.length - (c :: cs).length) := by
          conv_lhs => rw [heq]
          rw [List.drop_left]
        exact hspan (c :: cs).length hgt (by simp)
          (hdrop ▸ List.take_prefix _ t)
      rw [if_neg h1, if_neg h2, ih]
      omega

theorem infix_of_countOcc_pos (needle l : Str) (h : countOcc needle l ≠ 0) :
    needle <:+: l := by
  induction l with
  | nil => simp [countOcc] at h
  | cons c cs ih =>
    unfold countOcc at h
    by_cases hp : needle <+: c :: cs
    · exact hp.isInfix
    · rw [if_neg hp] at h
      exact (ih (by omega)).trans (List.suffix_cons c cs).isInfix

theorem countOcc_eq_zero_of_not_infix (needle l : Str) (h : ¬ needle <:+: l) :
    countOcc needle l = 0 := by
  by_contra hc
  exact h (infix_of_countOcc_pos needle l hc)

/-! ### The OCR text parser (`XunfeiOCR._parse_ultrasound_data`)

Each regular expression of the source is compiled by hand into a
position matcher (`Str → Option ...`); `re.search` is a left-to-right
scan for the first matching position (`searchCap`), `re.finditer` a
non-overlapping left-to-right collection (`findAll`).  For every
pattern of the source, greedy/optional parts are resolved the way the
regex engine resolves them on that pattern (noted where relevant). -/

/-- Match a literal at the current position; on success return the rest. -/
def dropLit (lit : Str) (s : Str) : Option Str :=
  if lit.isPrefixOf s then some (s.drop lit.length) else none

/-- `\s*`: skip whitespace (the recognized text is space separated ASCII/CJK,
so Lean's four-character whitespace class coincides with `\s` here). -/
def skipSpaces (s : Str) : Str := s.dropWhile Char.isWhitespace

/-- Is this a `[\d.]` character? -/
def isDotDigit (c : Char) : Bool := c.isDigit || c == '.'

/-- `([\d.]+)`: a non-empty maximal digits-and-dots capture, plus the rest.
No following element of any source pattern can consume a `[\d.]`
character, so the maximal munch is exact. -/
def takeNumber (s : Str) : Option (Str × Str) :=
  let cap := s.takeWhile isDotDigit
  if cap.isEmpty then none else some (cap, s.drop cap.length)

/-- `re.search`: try the position matcher at each position, leftmost first. -/
def searchCap (m : Str → Option Str) : Str → Option Str
  | [] => none
  | c :: rest =>
    match m (c :: rest) with
    | some cap => some cap
    | none => searchCap m rest

/-- Non-overlapping `re.finditer` collection of captures, fuelled by the
text length (every matcher consumes at least one character). -/
def findAllAux (m : Str → Option (Str × Str)) : ℕ → Str → List Str
  | 0, _ => []
  | _, [] => []
  | Nat.succ fuel, c :: rest =>
    match m (c :: rest) with
    | some (cap, after) => cap :: findAllAux m fuel after
    | none => findAllAux m fuel rest

/-- `re.finditer` over a whole text, returning the captures in order. -/
def findAll (m : Str → Option (Str × Str)) (s : Str) : List Str :=
  findAllAux m s.length s

/-- Try position matchers in order at one position (regex alternation). -/
def firstSome (fs : List (Str → Option Str)) (s : Str) : Option Str :=
  match fs with
  | [] => none
  | f :: rest =>
    match f s with
    | some cap => some cap
    | none => firstSome rest s

/-- `LIT\s*([\d.]+)` at a position. -/
def litNumAt (lit : Str) (s : Str) : Option Str :=
  match dropLit lit s with
  | none => none
  | some r => (takeNumber (skipSpaces r)).map Prod.fst

/-- `Dist\s*([\d.]+)\s*cm` at a position (chamber-size view, English form). -/
def matchDistEnAt (s : Str) : Option (Str × Str) :=
  match dropLit "Dist".toList s with
  | none => none
  | some r1 =>
    match takeNumber (skipSpaces r1) with
    | none => none
    | some (cap, r2) =>
      match dropLit "cm".toList (skipSpaces r2) with
      | none => none
      | some r3 => some (cap, r3)

/-- `距\s*离\s*([\d.]+)\s*(?:cm|厘米)` at a position (Chinese form). -/
def matchDistZhAt (s : Str) : Option (Str × Str) :=
  match dropLit "距".toList s with
  | none => none
  | some r0 =>
    match dropLit "离".toList (skipSpaces r0) with
    | none => none
    | some r1 =>
      match takeNumber (skipSpaces r1) with
      | none => none
      | some (cap, r2) =>
        match dropLit "cm".toList (skipSpaces r2) with
        | some r3 => some (cap, r3)
        | none =>
          match dropLit "厘米".toList (skipSpaces r2) with
          | none => none
          | some r3 => some (cap, r3)

/-- The ordered distance captures of the chamber-size block: English
matches first; the Chinese pattern is tried only when there are none. -/
def distanceCaps (text : Str) : List Str :=
  let en := findAll matchDistEnAt text
  if en.isEmpty then findAll matchDistZhAt text else en

/-- `float()` over a capture list; a malformed capture raises `ValueError`
(the chamber block applies `float` with no handler). -/
def floatListOfCaps (caps : List Str) : Except PyErr (List ℚ) :=
  caps.mapM (fun c =>
    match pyFloat c with
    | some v => Except.ok v
    | none => Except.error PyErr.valueError)

/-- The chamber-size block: 4 or more distances are assigned positionally;
exactly one distance in a `2D/MM` context is a TAPSE measurement. -/
def chamberMeasurements (text : Str) : Except PyErr Measurements :=
  match floatListOfCaps (distanceCaps text) with
  | Except.error e => Except.error e
  | Except.ok distances =>
    match distances with
    | a :: b :: c :: d :: _ =>
      Except.ok [("RA_length", a), ("RA_short", b), ("LA_length", c), ("LA_short", d)]
    | [a] =>
      if "2D/MM".toList <:+: text then Except.ok [("TAPSE_dist", a)] else Except.ok []
    | _ => Except.ok []

/-- `LIT[^0-9]*([\d.]+)` at a position: skip greedily to the first digit.
(When no digit follows, the only possible regex match captures a dotted
string whose `float` raises, which this block catches and skips, so
`none` is the same outcome.) -/
def afterLitNumberAt (lit : Str) (s : Str) : Option Str :=
  match dropLit lit s with
  | none => none
  | some r =>
    let r1 := r.dropWhile (fun c => ¬ c.isDigit)
    if r1.isEmpty then none else some (r1.takeWhile isDotDigit)

/-- One M-mode parameter: `re.search` with the literal alternatives of the
source pattern; a `float` failure is caught (`except ValueError: continue`)
and yields no entry. -/
def mmodeParam (key : String) (lits : List String) (text : Str) : Measurements :=
  match searchCap (firstSome (lits.map (fun l => afterLitNumberAt l.toList))) text with
  | none => []
  | some cap =>
    match pyFloat cap with
    | some v => [(key, v)]
    | none => []

/-- The left-ventricle M-mode block of `_parse_ultrasound_data`. -/
def mmodeSection (text : Str) : Measurements :=
  if ["EDV", "ESV", "EF", "舒张末容积", "收缩末容积", "射血分数"].any
      (fun g => decide (g.toList <:+: text)) then
    mmodeParam "EDV" ["EDV", "舒张末容积"] text ++
    mmodeParam "ESV" ["ESV", "收缩末容积"] text ++
    mmodeParam "LVEF" ["LVEF", "EF", "射血分数"] text ++
    mmodeParam "FS" ["FS", "缩短分数"] text ++
    mmodeParam "IVS" ["IVS", "室间隔"] text
  else []

/-- A capture fed to an unguarded `float(...)` assignment: a malformed
capture raises `ValueError`; no capture yields no entry. -/
def capToMeas (key : String) (c : Option Str) : Except PyErr Measurements :=
  match c with
  | none => Except.ok []
  | some cap =>
    match pyFloat cap with
    | some v => Except.ok [(key, v)]
    | none => Except.error PyErr.valueError

/-- Run two fallible dictionary updates in order, accumulating their
entries; the first raise propagates. -/
def okAppend (e1 e2 : Except PyErr Measurements) : Except PyErr Measurements :=
  match e1 with
  | Except.error e => Except.error e
  | Except.ok a =>
    match e2 with
    | Except.error e => Except.error e
    | Except.ok b => Except.ok (a ++ b)

/-- `(?:Med\s*E|E\s*Med)\s*(?:Vel\s*)?([\d.]+)(?:\s*cm/?s)?` at a position.
The two alternatives diverge at their first character, and when the
optional `Vel\s*` commits and no number follows, the no-`Vel` reading
starts at `V` and fails too, so no backtracking is observable. -/
def medEAt (s : Str) : Option Str :=
  let part1 : Option Str :=
    match dropLit "Med".toList s with
    | some a => dropLit "E".toList (skipSpaces a)
    | none =>
      match dropLit "E".toList s with
      | some a => dropLit "Med".toList (skipSpaces a)
      | none => none
  match part1 with
  | none => none
  | some r1 =>
    let r2 := skipSpaces r1
    let cand :=
      match dropLit "Vel".toList r2 with
      | some v => skipSpaces v
      | none => r2
    (takeNumber cand).map Prod.fst

/-- `(?:E/Med\s*E|E\s*Med\s*E|E/E)\s*([\d.]+)` at a position (the three
alternatives diverge within their first two characters). -/
def eMedEAt (s : Str) : Option Str :=
  let part1 : Option Str :=
    match dropLit "E/Med".toList s with
    | some a => dropLit "E".toList (skipSpaces a)
    | none =>
      match (match dropLit "E".toList s with
             | some a =>
               match dropLit "Med".toList (skipSpaces a) with
               | some b => dropLit "E".toList (skipSpaces b)
               | none => none
             | none => none) with
      | some r => some r
      | none => dropLit "E/E".toList s
  match part1 with
  | none => none
  | some r1 => (takeNumber (skipSpaces r1)).map Prod.fst

/-- The left-ventricle tissue-Doppler block (unguarded `float` calls). -/
def tissueSection (text : Str) : Except PyErr Measurements :=
  if ["Med E", "E Med E", "内侧E速度", "E/内侧E"].any
      (fun g => decide (g.toList <:+: text)) then
    let eVelCap :=
      match searchCap medEAt text with
      | some cap => some cap
      | none =>
        match searchCap (litNumAt "内侧E速度".toList) text with
        | some cap => some cap
        | none => searchCap (litNumAt "中隔E速度".toList) text
    let eMedECap :=
      match searchCap eMedEAt text with
      | some cap => some cap
      | none =>
        match searchCap (litNumAt "E/内侧E".toList) text with
        | some cap => some cap
        | none => searchCap (litNumAt "E／内侧E".toList) text
    okAppend (capToMeas "e_velocity" eVelCap) (capToMeas "E_Med_E" eMedECap)
  else Except.ok []

/-- `(?:MV\s+)?LIT...` at a position: when `MV` followed by whitespace is
present the tail must match after it (the bare reading would re-start at
`M` and fail); otherwise the bare pattern applies. -/
def optMvThen (m : Str → Option Str) (s : Str) : Option Str :=
  match dropLit "MV".toList s with
  | some r =>
    let r1 := r.dropWhile Char.isWhitespace
    if r1.length < r.length then m r1 else none
  | none => m s

/-- `(?:MV\s+)?Decel Time\s*([\d.]+)(?:\s*ms)?` at a position. -/
def decelTimeAt (s : Str) : Option Str :=
  optMvThen (fun b =>
    match dropLit "Decel Time".toList b with
    | none => none
    | some r1 => (takeNumber (skipSpaces r1)).map Prod.fst) s

/-- `(\d+)\s*ms` anchored at a position. -/
def digitsMsAt (s : Str) : Option Str :=
  let cap := s.takeWhile Char.isDigit
  if cap.isEmpty then none
  else
    match dropLit "ms".toList (skipSpaces (s.drop cap.length)) with
    | some _ => some cap
    | none => none

/-- `减速时间.*?(\d+)\s*ms` at a position: the literal, then the earliest
following digit run that is followed by `ms`. -/
def jiansuAt (s : Str) : Option Str :=
  match dropLit "减速时间".toList s with
  | none => none
  | some r => searchCap digitsMsAt r

/-- `(?:MV\s+)?E/A\s*([\d.]+)` at a position (the primary E/A pattern). -/
def eaPrimaryAt (s : Str) : Option Str :=
  optMvThen (fun b =>
    match dropLit "E/A".toList b with
    | none => none
    | some r1 => (takeNumber (skipSpaces r1)).map Prod.fst) s

/-- The spectral-Doppler block: EDT then E/A, each with its ordered
pattern list, with unguarded `float` calls. -/
def spectralSection (text : Str) : Except PyErr Measurements :=
  if ["Decel Time", "E/A", "EJA", "MV减速时间", "E／A"].any
      (fun g => decide (g.toList <:+: text)) then
    let edtCap :=
      match searchCap decelTimeAt text with
      | some cap => some cap
      | none =>
        match searchCap jiansuAt text with
        | some cap => some cap
        | none => searchCap digitsMsAt text
    let eaCap :=
      match searchCap eaPrimaryAt text with
      | some cap => some cap
      | none =>
        match searchCap (litNumAt "EJA".toList) text with
        | some cap => some cap
        | none => searchCap (litNumAt "E／A".toList) text
    okAppend (capToMeas "EDT" edtCap) (capToMeas "E/A" eaCap)
  else Except.ok []

/-- The right-ventricle tissue-Doppler block: the velocity is recorded
only under the source's `('速度' in text and '压力梯度' in text or 'PG' in
text)` condition; the pressure gradient unconditionally on match. -/
def rvSection (text : Str) : Except PyErr Measurements :=
  if ["Vel", "PG", "速度", "压力梯度"].any (fun g => decide (g.toList <:+: text)) then
    let velCap :=
      match searchCap (litNumAt "Vel".toList) text with
      | some cap => some cap
      | none => searchCap (litNumAt "速度".toList) text
    let cond := ("速度".toList <:+: text ∧ "压力梯度".toList <:+: text) ∨
      "PG".toList <:+: text
    let pgCap :=
      match searchCap (litNumAt "PG".toList) text with
      | some cap => some cap
      | none => searchCap (litNumAt "压力梯度".toList) text
    okAppend (if cond then capToMeas "tr_velocity" velCap else Except.ok [])
      (capToMeas "pg" pgCap)
  else Except.ok []

/-- `_parse_ultrasound_data`: the measurement dictionary accumulated by
the five view-specific blocks, in source order. -/
def parseUltrasoundData (text : Str) : Except PyErr Measurements :=
  match chamberMeasurements text with
  | Except.error e => Except.error e
  | Except.ok cham =>
    let mm := mmodeSection text
    match tissueSection text with
    | Except.error e => Except.error e
    | Except.ok ts =>
      match spectralSection text with
      | Except.error e => Except.error e
      | Except.ok sp =>
        match rvSection text with
        | Except.error e => Except.error e
        | Except.ok rv => Except.ok (cham ++ mm ++ ts ++ sp ++ rv)

/-! ### The report synthesizer (`UltrasoundReport`)

`self.data` is the mapping from view name to that view's parsed
measurements, as built by `process_images` (a view whose OCR failed is
simply absent).  Python's float-to-string formatting is abstracted as a
parameter `frepr`; integer formatting is `toString`. -/

/-- `measurements.get(key) > bound`: comparing `None` with a float raises
`TypeError` in Python 3. -/
def pyGt (a : Option ℚ) (b : ℚ) : Except PyErr Bool :=
  match a with
  | some x => Except.ok (decide (b < x))
  | none => Except.error PyErr.typeError

/-- `_evaluate_chamber_size`, including Python's short-circuiting `or`
over the fallible `None` comparisons. -/
def evaluateChamberSize (m : Measurements) : Except PyErr String :=
  match pyGt (mlookup m "LA_short") 4 with
  | Except.error e => Except.error e
  | Except.ok la1 =>
    match (if la1 then Except.ok true else pyGt (mlookup m "LA_length") 5) with
    | Except.error e => Except.error e
    | Except.ok la =>
      let results := if la then ["左房扩大"] else []
      match pyGt (mlookup m "RA_short") 4 with
      | Except.error e => Except.error e
      | Except.ok ra1 =>
        match (if ra1 then Except.ok true else pyGt (mlookup m "RA_length") (mkRat 51 10)) with
        | Except.error e => Except.error e
        | Except.ok ra =>
          let results := results ++ (if ra then ["右房扩大"] else [])
          Except.ok (if results.isEmpty then "各房室腔大小正常。"
            else String.intercalate ", " results ++ "，余房室腔大小正常。")

/-- `_get_measurement_value`: first view (in insertion order) holding the
parameter. -/
def getMeasurementValue (data : List (String × Measurements)) (p : String) : Option ℚ :=
  data.findSome? (fun vm => mlookup vm.2 p)

/-- `_get_tapse_value`: the TAPSE distance of the right-ventricle M-mode
view, rounded to one decimal. -/
def getTapseValue (data : List (String × Measurements)) : Option ℚ :=
  match (data.find? (fun p => p.1 = "右心室M型超声图")).map Prod.snd with
  | some m =>
    match mlookup m "TAPSE_dist" with
    | some raw => some ((pyRound (raw * 10) : ℚ) / 10)
    | none => none
  | none => none

/-- `_format_tapse` (the second, surviving definition): round to one
decimal, passing `None` through. -/
def formatTapse (v : Option ℚ) : Option ℚ :=
  v.map (fun x => (pyRound (x * 10) : ℚ) / 10)

/-- `_calculate_pulmonary_pressure` on a present velocity (cm/s):
`round(4 * (velocity / 100) ** 2 + 3)` in mmHg. -/
def calculatePulmonaryPressure (velocity : ℚ) : ℤ :=
  pyRound (4 * (velocity / 100) ^ 2 + 3)

/-- Section 7 of `generate_report`: the estimated pulmonary artery
systolic pressure, or the insufficient-data line. -/
def pulmonarySection (trVel : Option ℚ) : List String :=
  ["\n7. 估测肺动脉收缩压:"] ++
  (match trVel with
   | some v => [toString (calculatePulmonaryPressure v) ++ "mmHg（正常值：＜35mmHg）"]
   | none => ["无法计算（缺少必要数据）"])

/-- Python truthiness-guarded trigger `ivs and ivs > 11`. -/
def ivsTriggers (ivs : Option ℚ) : Bool :=
  match ivs with
  | some v => decide (v ≠ 0 ∧ 11 < v)
  | none => false

/-- Python truthiness-guarded trigger `ea and ea < 1`. -/
def eaTriggers (ea : Option ℚ) : Bool :=
  match ea with
  | some v => decide (v ≠ 0 ∧ v < 1)
  | none => false

/-- The diagnosis-summary block of `generate_report` (after the
`诊断总结` header): hypertrophy line, diastolic-dysfunction line, or the
no-abnormality default. -/
def diagnosisBlock (ivs ea : Option ℚ) : String :=
  let diagnoses := (if ivsTriggers ivs then ["室间隔心肌肥厚（基底段）"] else []) ++
    (if eaTriggers ea then ["左室舒张功能减低"] else [])
  if diagnoses.isEmpty then "未见明显异常" else String.intercalate "\n" diagnoses

/-- `generate_report` over the per-view parse results, joined by
newlines; the only fallible step is the chamber-size evaluation. -/
def generateReport (frepr : ℚ → String) (data : List (String × Measurements)) :
    Except PyErr String :=
  let header : List String := ["超声心动图报告", String.mk (List.replicate 40 '=')]
  let chamberData : Option Measurements :=
    (data.find? (fun p => p.1 = "心房二维尺寸图")).map Prod.snd
  match (match chamberData with
         | some m => if ¬ m.isEmpty then evaluateChamberSize m
                     else Except.ok "1.各房室腔大小正常。"
         | none => Except.ok "1.各房室腔大小正常。") with
  | Except.error e => Except.error e
  | Except.ok line1 =>
    let sec2 : List String := ["\n2. 彩色室壁动力学分析:", "左室壁节段性运动未见异常。"]
    let sec3 : List String := ["\n3. 组织多普勒:"] ++
      (match getMeasurementValue data "e_velocity" with
       | some v => ["二尖瓣环室间隔位点e\x27 " ++ frepr v ++ "cm/s"]
       | none => [])
    let ea := getMeasurementValue data "E/A"
    let meas4 : List String :=
      (match ea with | some v => ["E/A " ++ frepr v] | none => []) ++
      (match getMeasurementValue data "EDT" with
       | some v => ["EDT " ++ toString (pyInt v) ++ "ms"] | none => []) ++
      (match getMeasurementValue data "E_Med_E" with
       | some v => ["E/e\x27 " ++ frepr v] | none => [])
    let sec4 : List String := ["\n4. 左心室舒张功能测定:"] ++
      (if meas4.isEmpty then [] else [String.intercalate "，" meas4])
    let sec5 : List String := ["\n5. 左心室收缩功能测定:"] ++
      (match getMeasurementValue data "EDV" with
       | some v => ["EDV " ++ frepr v ++ "ml"] | none => []) ++
      (match getMeasurementValue data "LVEF" with
       | some v => ["LVEF " ++ frepr v ++ "%（正常值：55%-75%）"] | none => [])
    let sec6 : List String := ["\n6. 右心室功能测定:"] ++
      (match formatTapse (getTapseValue data) with
       | some v => ["TAPSE " ++ frepr v ++ "cm（正常值：＞1.6cm）"]
       | none => [])
    let sec7 := pulmonarySection (getMeasurementValue data "tr_velocity")
    let diag : List String := ["\n诊断总结:", String.mk (List.replicate 40 '=')] ++
      [diagnosisBlock (getMeasurementValue data "IVS") ea]
    Except.ok (String.intercalate "\n"
      (header ++ [line1] ++ sec2 ++ sec3 ++ sec4 ++ sec5 ++ sec6 ++ sec7 ++ diag))

/-! ### The detection pipeline (`ModelService`) -/

/-- An ultrasound image row: view-type code and storage location. -/
structure UltrasoundImage where
  image_type : ℕ
  file_path : String
deriving DecidableEq

/-- The per-case detection result row (identity fields elided). -/
structure DetectionResult where
  conclusion : Str
  description : String
  confidence : ℚ
deriving DecidableEq

/-- One per-view classification output (the tensors are carried only to
the Grad-CAM step and are elided). -/
structure Vote where
  image_type : ℕ
  pred_label : String
  prob : ℚ
deriving DecidableEq

/-- `class_names = ['mild', 'moderate']`. -/
def classNames : List String := ["mild", "moderate"]

/-- `_map_image_type_to_model_key`. -/
def modelKeyOfType : ℕ → Option String
  | 1 => some "2d_apical"
  | 2 => some "2d_long_axis"
  | 3 => some "doppler_apical"
  | 4 => some "doppler_long_axis"
  | _ => none

/-- The `model_files` table of `_predict_case`. -/
def modelFileOfKey (k : String) : String := "models/" ++ k ++ ".pth"

/-- What a segmentation run of one record yields: the per-class-index
pixel counts of the predicted mask and the stored overlay's location. -/
structure SegOutcome where
  counts : ℕ → ℕ
  savePath : String

/-- The external world of one pipeline run: which classifier weight files
exist, what each external/effectful step returns, and float formatting. -/
structure Env where
  modelFileExists : String → Bool
  infer : UltrasoundImage → Except PyErr (Fin 2 × ℚ)
  gradcamRun : Vote → Except PyErr String
  segRun : UltrasoundImage → Except PyErr SegOutcome
  ocrData : List (ℕ × String) → List (String × Measurements)
  frepr : ℚ → String

/-- The collection loop of `_predict_case`: skip unmapped view types and
missing weight files; download/inference failures propagate. -/
def collectVotes (env : Env) : List UltrasoundImage → Except PyErr (List Vote)
  | [] => Except.ok []
  | img :: rest =>
    match modelKeyOfType img.image_type with
    | none => collectVotes env rest
    | some key =>
      if env.modelFileExists (modelFileOfKey key) then
        match env.infer img with
        | Except.error e => Except.error e
        | Except.ok (pc, prob) =>
          match collectVotes env rest with
          | Except.error e => Except.error e
          | Except.ok votes =>
            Except.ok ({ image_type := img.image_type,
                         pred_label := classNames.getD pc.1 "",
                         prob := prob } :: votes)
      else collectVotes env rest

/-- `_predict_case`: raises `ValueError` (`没有可用于推理的图像`) when no
image yields a usable prediction. -/
def predictCase (env : Env) (images : List UltrasoundImage) : Except PyErr (List Vote) :=
  match collectVotes env images with
  | Except.error e => Except.error e
  | Except.ok votes => if votes.isEmpty then Except.error PyErr.valueError else Except.ok votes

/-- `_finalize_conclusion`: ≥ n/2 majority toward `mild`, and the mean
probability over the votes agreeing with the final label (0.0 when that
subset is empty). -/
def finalizeConclusion (outputs : List (String × ℚ)) : String × ℚ :=
  let predictions := outputs.map Prod.fst
  let mildCount := predictions.count "mild"
  let finalConclusion :=
    if ((mildCount : ℚ)) ≥ (predictions.length : ℚ) / 2 then "mild" else "moderate"
  let finalConfidences := (outputs.filter (fun o => o.1 = finalConclusion)).map Prod.snd
  let avgConfidence :=
    if ¬ finalConfidences.isEmpty then finalConfidences.sum / (finalConfidences.length : ℚ)
    else 0
  (finalConclusion, avgConfidence)

/-- The step-4 loop of `detect_disease`: each Grad-CAM artifact is
upserted under `image_type + 4` and committed per image; the first
failure aborts the loop with the already-committed artifacts kept. -/
def runGradcams (env : Env) : List (ℕ × String) → List Vote →
    List (ℕ × String) × Option PyErr
  | det, [] => (det, none)
  | det, v :: rest =>
    match env.gradcamRun v with
    | Except.error e => (det, some e)
    | Except.ok path => runGradcams env (upsertAssoc det (v.image_type + 4) path) rest

/-- The `model_configs` class-name table of `segment_and_save_masks`. -/
def segClassNames : ℕ → Option (List String)
  | 1 => some ["LA", "LV", "RA", "RV", "MV", "TV"]
  | 2 => some ["LA", "LV", "RV", "AV", "MV", "LVOT"]
  | 3 => some ["MV", "TV", "Aorta"]
  | 4 => some ["MV", "Aorta"]
  | _ => none

/-- The tricuspid-regurgitation finding phrase. -/
def tvPhrase : Str := "三尖瓣反流".toList

/-- The aortic-regurgitation finding phrase. -/
def aoPhrase : Str := "主动脉瓣反流".toList

/-- What a triggered finding appends (delimiter plus phrase). -/
def tvChunk : Str := "，三尖瓣反流".toList

/-- What a triggered aortic finding appends. -/
def aoChunk : Str := "，主动脉瓣反流".toList

/-- The structural-finding checks of `segment_and_save_masks` for one
record: on reflux-bearing views (types 3 and 4), a class whose pixel
count exceeds the 100-pixel threshold appends its phrase — only if the
phrase is not already a substring of the conclusion. -/
def applyFindings (imageType : ℕ) (clsNames : List String) (counts : ℕ → ℕ)
    (conclusion : Str) : Str :=
  if imageType = 3 ∨ imageType = 4 then
    let c1 :=
      if "TV" ∈ clsNames then
        (if counts (clsNames.indexOf "TV" + 1) > 100 ∧ ¬ (tvPhrase <:+: conclusion) then
          conclusion ++ tvChunk
        else conclusion)
      else conclusion
    if "Aorta" ∈ clsNames then
      (if counts (clsNames.indexOf "Aorta" + 1) > 100 ∧ ¬ (aoPhrase <:+: c1) then
        c1 ++ aoChunk
      else c1)
    else c1
  else conclusion

/-- The in-loop state of `segment_and_save_masks`: detection-image rows
(keyed by view type) and the working conclusion string. -/
structure SegState where
  detImages : List (ℕ × String)
  conclusion : Str
deriving DecidableEq

/-- One iteration of the `segment_and_save_masks` loop: unconfigured view
types are skipped; any failure of the model-load / download / inference /
upload chain propagates (the loop has no handler). -/
def segmentStep (segRun : UltrasoundImage → Except PyErr SegOutcome)
    (st : SegState) (record : UltrasoundImage) : Except PyErr SegState :=
  match segClassNames record.image_type with
  | none => Except.ok st
  | some clsNames =>
    match segRun record with
    | Except.error e => Except.error e
    | Except.ok out =>
      Except.ok { detImages := upsertAssoc st.detImages record.image_type out.savePath,
                  conclusion := applyFindings record.image_type clsNames out.counts
                    st.conclusion }

/-- `segment_and_save_masks` over the case's records (`db.commit` happens
only after the loop, so an error yields no state change). -/
def segmentAndSaveMasks (segRun : UltrasoundImage → Except PyErr SegOutcome) :
    List UltrasoundImage → SegState → Except PyErr SegState
  | [], st => Except.ok st
  | r :: rest, st =>
    match segmentStep segRun st r with
    | Except.error e => Except.error e
    | Except.ok st' => segmentAndSaveMasks segRun rest st'

/-- The `{img.image_type: img.file_path for img in images if ... in [5..10]}`
dict comprehension (later entries overwrite earlier ones). -/
def buildImageMap (images : List UltrasoundImage) : List (ℕ × String) :=
  images.foldl (fun acc img =>
    if img.image_type ∈ [5, 6, 7, 8, 9, 10] then
      upsertAssoc acc img.image_type img.file_path
    else acc) []

/-- Indexing a Python `str` with a `str` key (`report_map["description"]`
where `report_map` is the string `UltrasoundReport.report` returns):
string indices must be integers, so this raises `TypeError`. -/
def pyIndexStrStr (_ : String) (_ : String) : Except PyErr String :=
  Except.error PyErr.typeError

/-- Steps 6–7 of `detect_disease` (lines 79–83): generate the report via
`UltrasoundReport.report`, then read `report_map["description"]` and
`report_map["conclusion"]` to update the result. -/
def reportStep (env : Env) (imageMap : List (ℕ × String)) (res : DetectionResult) :
    Except PyErr DetectionResult :=
  match generateReport env.frepr (env.ocrData imageMap) with
  | Except.error e => Except.error e
  | Except.ok reportText =>
    match pyIndexStrStr reportText "description" with
    | Except.error e => Except.error e
    | Except.ok desc =>
      match pyIndexStrStr reportText "conclusion" with
      | Except.error e => Except.error e
      | Except.ok rc =>
        Except.ok { res with
          description := desc,
          conclusion := if rc ≠ "" then rc.toList ++ "，".toList ++ res.conclusion
            else res.conclusion }

/-- The per-label severity conclusion text of `detect_disease`. -/
def conclusionText (label : String) : Str :=
  if label = "mild" then "二尖瓣反流（轻度）".toList
  else if label = "moderate" then "二尖瓣反流（中度）".toList
  else label.toList

/-- The stored rows `detect_disease` touches: case existence, the case's
images, its single detection result, and the detection-image rows. -/
structure DbState where
  caseExists : Bool
  images : List UltrasoundImage
  result : Option DetectionResult
  detImages : List (ℕ × String)
deriving DecidableEq

/-- `ModelService.detect_disease`: the whole pipeline, returning the
outcome together with the committed state (an uncommitted mutation is
discarded when an exception propagates). -/
def detectDisease (env : Env) (st : DbState) : Except PyErr DetectionResult × DbState :=
  if ¬ st.caseExists then (Except.error PyErr.valueError, st)
  else if st.images.isEmpty then (Except.error PyErr.valueError, st)
  else
    match predictCase env st.images with
    | Except.error e => (Except.error e, st)
    | Except.ok outputs =>
      let fc := finalizeConclusion (outputs.map (fun v => (v.pred_label, v.prob)))
      let conclusion := conclusionText fc.1
      let res0 : DetectionResult :=
        { conclusion := conclusion, description := "", confidence := fc.2 }
      let st1 : DbState := { st with result := some res0 }
      let gr := runGradcams env st1.detImages outputs
      let st2 : DbState := { st1 with detImages := gr.1 }
      match gr.2 with
      | some e => (Except.error e, st2)
      | none =>
        match segmentAndSaveMasks env.segRun st2.images
            { detImages := st2.detImages, conclusion := conclusion } with
        | Except.error e => (Except.error e, st2)
        | Except.ok segSt =>
          let res1 : DetectionResult := { res0 with conclusion := segSt.conclusion }
          let st3 : DbState :=
            { st2 with detImages := segSt.detImages, result := some res1 }
          let imageMap := buildImageMap st3.images
          if imageMap.isEmpty then (Except.ok res1, st3)
          else
            match reportStep env imageMap res1 with
            | Except.error e => (Except.error e, st3)
            | Except.ok res2 => (Except.ok res2, { st3 with result := some res2 })

/-! ### Claims -/

/-- A trivial environment for concrete runs: no classifier weight files,
every external step fails, OCR yields nothing. -/
def env0 : Env :=
  { modelFileExists := fun _ => false,
    infer := fun _ => Except.error PyErr.runtime,
    gradcamRun := fun _ => Except.error PyErr.runtime,
    segRun := fun _ => Except.error PyErr.runtime,
    ocrData := fun _ => [],
    frepr := fun _ => "" }

/-- Claim C1: for every case whose image set contains a measurement-bearing
view, `detect_disease` is claimed to set the result's description to the
generated report text and to prefix a non-empty report conclusion onto the
result's conclusion.  In the code, `UltrasoundReport.report` returns the
report string itself, and `detect_disease` then evaluates
`report_map["description"]` — indexing a `str` with a `str` key — so the
step raises `TypeError` and can never return an updated result. -/
theorem claim_C1 :
    (∀ (env : Env) (imageMap : List (ℕ × String)) (res : DetectionResult),
      ∃ e, reportStep env imageMap res = Except.error e) ∧
    reportStep env0 [(5, "u")]
      { conclusion := "二尖瓣反流（轻度）".toList, description := "", confidence := 0 } =
      Except.error PyErr.typeError := by
  constructor
  · intro env imageMap res
    unfold reportStep
    cases hg : generateReport env.frepr (env.ocrData imageMap) with
    | error e => exact ⟨e, rfl⟩
    | ok s => exact ⟨PyErr.typeError, rfl⟩
  · rfl

/-- Claim C3: a case with no ultrasound images fails with a domain error
with the stored state unchanged, and so does a classification run in
which no image yields a usable vote. -/
theorem claim_C3 (env : Env) (st : DbState) (hc : st.caseExists = true) :
    (st.images = [] → detectDisease env st = (Except.error PyErr.valueError, st)) ∧
    (collectVotes env st.images = Except.ok [] →
      detectDisease env st = (Except.error PyErr.valueError, st)) := by
  constructor
  · intro h
    unfold detectDisease
    rw [hc, h]
    rfl
  · intro h
    by_cases him : st.images = []
    · unfold detectDisease
      rw [hc, him]
      rfl
    · unfold detectDisease
      rw [hc]
      have hpc : predictCase env st.images = Except.error PyErr.valueError := by
        unfold predictCase
        rw [h]
        rfl
      rw [List.isEmpty_eq_false.mpr him, hpc]
      rfl

/-- Witness for C3: a case with zero images, and a case whose only image
has the unmapped view type 9, both fail with the stored state unchanged. -/
theorem claim_C3_witness :
    detectDisease env0 ⟨true, [], none, []⟩ =
      (Except.error PyErr.valueError, ⟨true, [], none, []⟩) ∧
    detectDisease env0 ⟨true, [⟨9, "u"⟩], none, []⟩ =
      (Except.error PyErr.valueError, ⟨true, [⟨9, "u"⟩], none, []⟩) :=
  ⟨(claim_C3 env0 ⟨true, [], none, []⟩ rfl).1 rfl,
   (claim_C3 env0 ⟨true, [⟨9, "u"⟩], none, []⟩ rfl).2 rfl⟩

/-- The segmentation oracle for the C5 run: the type-3 record's
model-load/inference chain fails, the type-4 record's would succeed. -/
def segRunC5 : UltrasoundImage → Except PyErr SegOutcome := fun img =>
  if img.file_path = "a" then Except.error PyErr.fileNotFound
  else Except.ok ⟨fun _ => 0, "s"⟩

/-- The Grad-CAM oracle for the C5 run: fails on the type-3 view only. -/
def gradRunC5 : Vote → Except PyErr String := fun v =>
  if v.image_type = 3 then Except.error PyErr.fileNotFound else Except.ok "g"

/-- Claim C5: the spec claims a failure while generating one view's
segmentation or saliency overlay is logged, that artifact skipped, and the
pipeline continues over sibling views.  Neither loop has a handler: a
failing first view makes `segment_and_save_masks` raise (no sibling
processed, nothing committed), and the Grad-CAM loop stops at the failing
view with the sibling's artifact never produced. -/
theorem claim_C5 :
    segmentAndSaveMasks segRunC5 [⟨3, "a"⟩, ⟨4, "b"⟩]
      ⟨[], "二尖瓣反流（轻度）".toList⟩ = Except.error PyErr.fileNotFound ∧
    runGradcams { env0 with gradcamRun := gradRunC5 } []
      [⟨3, "mild", 1⟩, ⟨4, "mild", 1⟩] = ([], some PyErr.fileNotFound) :=
  ⟨rfl, rfl⟩

/-- Claim C6: the spec claims report generation completes without raising
on any partial measurement union.  A chamber-size view whose parse is
non-empty but lacks the four chamber keys (as the single-distance TAPSE
branch produces) makes `_evaluate_chamber_size` compare `None > 4.0`,
raising `TypeError`. -/
theorem claim_C6 :
    generateReport (fun _ => "") [("心房二维尺寸图", [("TAPSE_dist", mkRat 9 5)])] =
      Except.error PyErr.typeError := rfl

/-- A conclusion string already holding the tricuspid phrase twice. -/
def badConclusion : Str := "三尖瓣反流，三尖瓣反流".toList

/-- Counterexample to C4 as stated: it quantifies over every conclusion
string, but a run over no segmentation views returns a conclusion in which
the tricuspid finding phrase already occurs twice. -/
theorem claim_C4_counterexample :
    segmentAndSaveMasks (fun _ => Except.error PyErr.runtime) [] ⟨[], badConclusion⟩ =
      Except.ok ⟨[], badConclusion⟩ ∧ ¬ (countOcc tvPhrase badConclusion ≤ 1) :=
  ⟨rfl, by decide⟩

theorem countOcc_tv_append_tv (c : Str) (h : ¬ tvPhrase <:+: c) :
    countOcc tvPhrase (c ++ tvChunk) ≤ 1 := by
  rw [countOcc_append tvPhrase c tvChunk (by decide),
    countOcc_eq_zero_of_not_infix tvPhrase c h]
  have h1 : countOcc tvPhrase tvChunk = 1 := by decide
  omega

theorem countOcc_ao_append_tv (c : Str) (h : countOcc aoPhrase c ≤ 1) :
    countOcc aoPhrase (c ++ tvChunk) ≤ 1 := by
  rw [countOcc_append aoPhrase c tvChunk (by decide)]
  have h1 : countOcc aoPhrase tvChunk = 0 := by decide
  omega

theorem countOcc_ao_append_ao (c : Str) (h : ¬ aoPhrase <:+: c) :
    countOcc aoPhrase (c ++ aoChunk) ≤ 1 := by
  rw [countOcc_append aoPhrase c aoChunk (by decide),
    countOcc_eq_zero_of_not_infix aoPhrase c h]
  have h1 : countOcc aoPhrase aoChunk = 1 := by decide
  omega

theorem countOcc_tv_append_ao (c : Str) (h : countOcc tvPhrase c ≤ 1) :
    countOcc tvPhrase (c ++ aoChunk) ≤ 1 := by
  rw [countOcc_append tvPhrase c aoChunk (by decide)]
  have h1 : countOcc tvPhrase aoChunk = 0 := by decide
  omega

theorem applyFindings_counts (ty : ℕ) (cls : List String) (counts : ℕ → ℕ) (c : Str)
    (htv : countOcc tvPhrase c ≤ 1) (hao : countOcc aoPhrase c ≤ 1) :
    countOcc tvPhrase (applyFindings ty cls counts c) ≤ 1 ∧
    countOcc aoPhrase (applyFindings ty cls counts c) ≤ 1 := by
  have key : ∀ c1 : Str, countOcc tvPhrase c1 ≤ 1 → countOcc aoPhrase c1 ≤ 1 →
      countOcc tvPhrase
        (if "Aorta" ∈ cls then
          (if counts (cls.indexOf "Aorta" + 1) > 100 ∧ ¬ (aoPhrase <:+: c1) then c1 ++ aoChunk
           else c1)
         else c1) ≤ 1 ∧
      countOcc aoPhrase
        (if "Aorta" ∈ cls then
          (if counts (cls.indexOf "Aorta" + 1) > 100 ∧ ¬ (aoPhrase <:+: c1) then c1 ++ aoChunk
           else c1)
         else c1) ≤ 1 := by
    intro c1 h1 h2
    split
    · split
      · next hcond => exact ⟨countOcc_tv_append_ao c1 h1, countOcc_ao_append_ao c1 hcond.2⟩
      · exact ⟨h1, h2⟩
    · exact ⟨h1, h2⟩
  have hc1 : countOcc tvPhrase
      (if "TV" ∈ cls then
        (if counts (cls.indexOf "TV" + 1) > 100 ∧ ¬ (tvPhrase <:+: c) then c ++ tvChunk
         else c)
       else c) ≤ 1 ∧
      countOcc aoPhrase
      (if "TV" ∈ cls then
        (if counts (cls.indexOf "TV" + 1) > 100 ∧ ¬ (tvPhrase <:+: c) then c ++ tvChunk
         else c)
       else c) ≤ 1 := by
    split
    · split
      · next hcond =>
        exact ⟨countOcc_tv_append_tv c hcond.2, countOcc_ao_append_tv c hao⟩
      · exact ⟨htv, hao⟩
    · exact ⟨htv, hao⟩
  unfold applyFindings
  split
  · exact key _ hc1.1 hc1.2
  · exact ⟨htv, hao⟩

theorem segmentStep_counts (segRun : UltrasoundImage → Except PyErr SegOutcome)
    (st st' : SegState) (r : UltrasoundImage)
    (htv : countOcc tvPhrase st.conclusion ≤ 1) (hao : countOcc aoPhrase st.conclusion ≤ 1)
    (h : segmentStep segRun st r = Except.ok st') :
    countOcc tvPhrase st'.conclusion ≤ 1 ∧ countOcc aoPhrase st'.conclusion ≤ 1 := by
  unfold segmentStep at h
  cases hcn : segClassNames r.image_type with
  | none =>
    rw [hcn] at h
    cases h
    exact ⟨htv, hao⟩
  | some cls =>
    rw [hcn] at h
    cases hsr : segRun r with
    | error e => rw [hsr] at h; cases h
    | ok out =>
      rw [hsr] at h
      cases h
      exact applyFindings_counts r.image_type cls out.counts st.conclusion htv hao

/-- Claim C4 (amended): whenever the initial conclusion holds each finding
phrase at most once — as the classification conclusions feeding this step
always do — the conclusion returned by the finding detector still holds
each phrase at most once, however many views trigger; a phrase is appended
only when it is not yet a substring. -/
theorem claim_C4 (segRun : UltrasoundImage → Except PyErr SegOutcome)
    (records : List UltrasoundImage) (st st' : SegState)
    (htv : countOcc tvPhrase st.conclusion ≤ 1)
    (hao : countOcc aoPhrase st.conclusion ≤ 1)
    (hrun : segmentAndSaveMasks segRun records st = Except.ok st') :
    countOcc tvPhrase st'.conclusion ≤ 1 ∧ countOcc aoPhrase st'.conclusion ≤ 1 := by
  induction records generalizing st with
  | nil =>
    unfold segmentAndSaveMasks at hrun
    cases hrun
    exact ⟨htv, hao⟩
  | cons r rest ih =>
    unfold segmentAndSaveMasks at hrun
    cases hstep : segmentStep segRun st r with
    | error e => rw [hstep] at hrun; cases hrun
    | ok stm =>
      rw [hstep] at hrun
      have hb := segmentStep_counts segRun st stm r htv hao hstep
      exact ih stm hb.1 hb.2 hrun

/-- The segmentation oracle for the C4 witness: every class index is over
the 100-pixel threshold. -/
def segRunC4 : UltrasoundImage → Except PyErr SegOutcome := fun _ =>
  Except.ok ⟨fun _ => 101, "p"⟩

/-- The conclusion the C4 witness run produces: both findings appended
once to the classification conclusion. -/
def wConcl : Str := ("二尖瓣反流（轻度）".toList ++ tvChunk) ++ aoChunk

/-- Witness for C4: a type-3 view triggering both findings on the mild
classification conclusion yields each phrase exactly once. -/
theorem claim_C4_witness :
    countOcc tvPhrase wConcl ≤ 1 ∧ countOcc aoPhrase wConcl ≤ 1 :=
  claim_C4 segRunC4 [⟨3, "f"⟩] ⟨[], "二尖瓣反流（轻度）".toList⟩ ⟨[(3, "p")], wConcl⟩
    (by decide) (by decide) rfl

/-- Counterexample to C7 as stated: an extracted E/A ratio of 0 is less
than 1, yet the summary is the no-abnormality default — the code's
truthiness guard `ea and ea < 1` skips a zero value. -/
theorem claim_C7_counterexample :
    ((0 : ℚ) < 1) ∧ diagnosisBlock none (some 0) = "未见明显异常" ∧
    ¬ ("左室舒张功能减低".toList <:+: (diagnosisBlock none (some 0)).toList) := by
  refine ⟨by norm_num, rfl, ?_⟩
  decide

/-- Claim C7 (amended): the summary block contains the basal-septal-
hypertrophy phrase exactly when a nonzero IVS above 11 was extracted,
contains the impaired-diastolic-function phrase exactly when a nonzero
E/A below 1 was extracted (`ea and ea < 1` is false at `ea = 0`), lists
them in that order when both hold, and is the no-abnormality default when
neither does. -/
theorem claim_C7 (ivs ea : Option ℚ) :
    ("室间隔心肌肥厚（基底段）".toList <:+: (diagnosisBlock ivs ea).toList ↔
      ivsTriggers ivs = true) ∧
    ("左室舒张功能减低".toList <:+: (diagnosisBlock ivs ea).toList ↔
      eaTriggers ea = true) ∧
    diagnosisBlock ivs ea =
      (if ivsTriggers ivs then
        (if eaTriggers ea then "室间隔心肌肥厚（基底段）\n左室舒张功能减低"
         else "室间隔心肌肥厚（基底段）")
       else (if eaTriggers ea then "左室舒张功能减低" else "未见明显异常")) := by
  cases hi : ivsTriggers ivs <;> cases he : eaTriggers ea <;>
    simp only [diagnosisBlock, hi, he] <;>
    exact ⟨by decide, by decide, by decide⟩

/-- Claim C8: the reported pulmonary artery systolic pressure is
`round(4 * (velocity_cm_per_s / 100) ** 2 + 3)` mmHg (100 cm/s gives 7),
and an absent triggering velocity yields the explicit
insufficient-data line instead. -/
theorem claim_C8 :
    (∀ v : ℚ, pulmonarySection (some v) =
      ["\n7. 估测肺动脉收缩压:",
        toString (pyRound (4 * (v / 100) ^ 2 + 3)) ++ "mmHg（正常值：＜35mmHg）"]) ∧
    calculatePulmonaryPressure 100 = 7 ∧
    pulmonarySection none = ["\n7. 估测肺动脉收缩压:", "无法计算（缺少必要数据）"] := by
  refine ⟨fun v => rfl, ?_, rfl⟩
  unfold calculatePulmonaryPressure
  have h : (4 * ((100 : ℚ) / 100) ^ 2 + 3) = 7 := by norm_num
  rw [h]
  simp only [pyRound]
  norm_num

/-- Claim C2: the aggregator returns `mild` exactly on a ≥ n/2 mild count
(ties toward `mild`) and the mean probability over the votes agreeing
with the final label, 0.0 when that subset is empty. -/
theorem claim_C2 (outputs : List (String × ℚ)) (h : outputs ≠ []) :
    (finalizeConclusion outputs).1 =
      (if 2 * (outputs.map Prod.fst).count "mild" ≥ outputs.length then "mild"
       else "moderate") ∧
    (finalizeConclusion outputs).2 =
      (if ((outputs.filter (fun o => o.1 = (finalizeConclusion outputs).1)).map Prod.snd).isEmpty
       then 0
       else ((outputs.filter (fun o => o.1 = (finalizeConclusion outputs).1)).map Prod.snd).sum /
         (((outputs.filter (fun o => o.1 = (finalizeConclusion outputs).1)).map Prod.snd).length :
           ℚ)) := by
  have hiff : (((outputs.map Prod.fst).count "mild" : ℚ) ≥
      ((outputs.map Prod.fst).length : ℚ) / 2) ↔
      (2 * (outputs.map Prod.fst).count "mild" ≥ outputs.length) := by
    rw [ge_iff_le, div_le_iff₀ (by norm_num : (0:ℚ) < 2), List.length_map]
    rw [show (((outputs.map Prod.fst).count "mild" : ℚ) * 2) =
      (((outputs.map Prod.fst).count "mild" * 2 : ℕ) : ℚ) by push_cast; ring]
    rw [Nat.cast_le]
    omega
  constructor
  · dsimp only [finalizeConclusion]
    rw [if_congr hiff rfl rfl]
  · dsimp only [finalizeConclusion]
    rw [ite_not]

/-- Witness for C2: one mild and one moderate vote tie, broken toward mild. -/
theorem claim_C2_witness :
    (finalizeConclusion [("mild", 1), ("moderate", mkRat 3 10)]).1 = "mild" := by
  rw [(claim_C2 [("mild", 1), ("moderate", mkRat 3 10)] (by decide)).1]
  rfl

theorem mlookup_eq_none_of_forall (l : Measurements) (k : String)
    (h : ∀ p ∈ l, p.1 ≠ k) : mlookup l k = none := by
  unfold mlookup
  rw [List.find?_eq_none.mpr]
  · rfl
  · intro x hx
    simpa using h x hx

theorem capToMeas_ok_cases (key : String) (c : Option Str) (l : Measurements)
    (h : capToMeas key c = Except.ok l) : l = [] ∨ ∃ v, l = [(key, v)] := by
  cases c with
  | none =>
    simp only [capToMeas] at h
    cases h
    exact Or.inl rfl
  | some cap =>
    simp only [capToMeas] at h
    cases hpf : pyFloat cap with
    | some v =>
      rw [hpf] at h
      cases h
      exact Or.inr ⟨v, rfl⟩
    | none => rw [hpf] at h; cases h

theorem mmodeParam_cases (key : String) (lits : List String) (text : Str) :
    mmodeParam key lits text = [] ∨ ∃ v, mmodeParam key lits text = [(key, v)] := by
  unfold mmodeParam
  cases hsc : searchCap (firstSome (lits.map (fun l => afterLitNumberAt l.toList))) text with
  | none => exact Or.inl rfl
  | some cap =>
    cases hpf : pyFloat cap with
    | some v =>
      refine Or.inr ⟨v, ?_⟩
      simp only [hpf]
    | none =>
      refine Or.inl ?_
      simp only [hpf]

theorem mmodeParam_fst (key : String) (lits : List String) (text : Str) :
    ∀ p ∈ mmodeParam key lits text, p.1 = key := by
  intro p hp
  rcases mmodeParam_cases key lits text with hc | ⟨v, hc⟩ <;> rw [hc] at hp
  · cases hp
  · rw [List.mem_singleton.mp hp]

theorem mmodeSection_fst (text : Str) :
    ∀ p ∈ mmodeSection text, p.1 = "EDV" ∨ p.1 = "ESV" ∨ p.1 = "LVEF" ∨
      p.1 = "FS" ∨ p.1 = "IVS" := by
  intro p hp
  unfold mmodeSection at hp
  split at hp
  · rcases List.mem_append.mp hp with hp4 | hIVS
    · rcases List.mem_append.mp hp4 with hp3 | hFS
      · rcases List.mem_append.mp hp3 with hp2 | hLVEF
        · rcases List.mem_append.mp hp2 with hEDV | hESV
          · exact Or.inl (mmodeParam_fst _ _ _ p hEDV)
          · exact Or.inr (Or.inl (mmodeParam_fst _ _ _ p hESV))
        · exact Or.inr (Or.inr (Or.inl (mmodeParam_fst _ _ _ p hLVEF)))
      · exact Or.inr (Or.inr (Or.inr (Or.inl (mmodeParam_fst _ _ _ p hFS))))
    · exact Or.inr (Or.inr (Or.inr (Or.inr (mmodeParam_fst _ _ _ p hIVS))))
  · cases hp

theorem matchAppend_fst (e1 e2 : Except PyErr Measurements) (k1 k2 : String)
    (l : Measurements)
    (h1 : ∀ l1, e1 = Except.ok l1 → (l1 = [] ∨ ∃ v, l1 = [(k1, v)]))
    (h2 : ∀ l2, e2 = Except.ok l2 → (l2 = [] ∨ ∃ v, l2 = [(k2, v)]))
    (h : okAppend e1 e2 = Except.ok l) :
    ∀ p ∈ l, p.1 = k1 ∨ p.1 = k2 := by
  unfold okAppend at h
  cases e1 with
  | error e => cases h
  | ok a =>
    cases e2 with
    | error e => cases h
    | ok b =>
      cases h
      intro p hp
      rcases List.mem_append.mp hp with hpa | hpb
      · rcases h1 a rfl with rfl | ⟨v, rfl⟩
        · cases hpa
        · rw [List.mem_singleton.mp hpa]
          exact Or.inl rfl
      · rcases h2 b rfl with rfl | ⟨v, rfl⟩
        · cases hpb
        · rw [List.mem_singleton.mp hpb]
          exact Or.inr rfl

theorem tissueSection_fst (text : Str) (l : Measurements)
    (h : tissueSection text = Except.ok l) :
    ∀ p ∈ l, p.1 = "e_velocity" ∨ p.1 = "E_Med_E" := by
  unfold tissueSection at h
  split at h
  · exact matchAppend_fst _ _ _ _ l
      (fun l1 hl1 => capToMeas_ok_cases _ _ _ hl1)
      (fun l2 hl2 => capToMeas_ok_cases _ _ _ hl2) h
  · cases h
    intro p hp
    cases hp

theorem spectralSection_fst (text : Str) (l : Measurements)
    (h : spectralSection text = Except.ok l) :
    ∀ p ∈ l, p.1 = "EDT" ∨ p.1 = "E/A" := by
  unfold spectralSection at h
  split at h
  · exact matchAppend_fst _ _ _ _ l
      (fun l1 hl1 => capToMeas_ok_cases _ _ _ hl1)
      (fun l2 hl2 => capToMeas_ok_cases _ _ _ hl2) h
  · cases h
    intro p hp
    cases hp

theorem rvSection_fst (text : Str) (l : Measurements)
    (h : rvSection text = Except.ok l) :
    ∀ p ∈ l, p.1 = "tr_velocity" ∨ p.1 = "pg" := by
  unfold rvSection at h
  split at h
  · refine matchAppend_fst _ _ _ _ l ?_
      (fun l2 hl2 => capToMeas_ok_cases _ _ _ hl2) h
    intro l1 hl1
    split at hl1
    · exact capToMeas_ok_cases _ _ _ hl1
    · cases hl1
      exact Or.inl rfl
  · cases h
    intro p hp
    cases hp

theorem chamberMeasurements_fst (text : Str) (l : Measurements)
    (h : chamberMeasurements text = Except.ok l) :
    ∀ p ∈ l, p.1 = "RA_length" ∨ p.1 = "RA_short" ∨ p.1 = "LA_length" ∨
      p.1 = "LA_short" ∨ p.1 = "TAPSE_dist" := by
  unfold chamberMeasurements at h
  cases hfl : floatListOfCaps (distanceCaps text) with
  | error e => rw [hfl] at h; cases h
  | ok ds =>
    rw [hfl] at h
    rcases ds with _ | ⟨a, _ | ⟨b, _ | ⟨c, _ | ⟨d, tl⟩⟩⟩⟩
    · cases h
      intro p hp
      cases hp
    · have h' : (if "2D/MM".toList <:+: text then Except.ok [("TAPSE_dist", a)]
          else Except.ok ([] : Measurements)) = Except.ok l := h
      split at h' <;> cases h'
      · intro p hp
        rw [List.mem_singleton.mp hp]
        exact Or.inr (Or.inr (Or.inr (Or.inr rfl)))
      · intro p hp
        cases hp
    · cases h
      intro p hp
      cases hp
    · cases h
      intro p hp
      cases hp
    · cases h
      intro p hp
      rcases List.mem_cons.mp hp with rfl | hp
      · exact Or.inl rfl
      rcases List.mem_cons.mp hp with rfl | hp
      · exact Or.inr (Or.inl rfl)
      rcases List.mem_cons.mp hp with rfl | hp
      · exact Or.inr (Or.inr (Or.inl rfl))
      rcases List.mem_cons.mp hp with rfl | hp
      · exact Or.inr (Or.inr (Or.inr (Or.inl rfl)))
      cases hp

theorem mlookup_append_none (a b : Measurements) (k : String)
    (ha : mlookup a k = none) (hb : mlookup b k = none) :
    mlookup (a ++ b) k = none := by
  rw [mlookup_append_of_none a b k ha]
  exact hb

theorem parse_decomp (text : Str) (m : Measurements)
    (h : parseUltrasoundData text = Except.ok m) :
    ∃ cham ts sp rv, chamberMeasurements text = Except.ok cham ∧
      tissueSection text = Except.ok ts ∧ spectralSection text = Except.ok sp ∧
      rvSection text = Except.ok rv ∧
      m = cham ++ mmodeSection text ++ ts ++ sp ++ rv := by
  unfold parseUltrasoundData at h
  cases hch : chamberMeasurements text with
  | error e => rw [hch] at h; cases h
  | ok cham =>
    rw [hch] at h
    cases hts : tissueSection text with
    | error e => rw [hts] at h; cases h
    | ok ts =>
      rw [hts] at h
      cases hsp : spectralSection text with
      | error e => rw [hsp] at h; cases h
      | ok sp =>
        rw [hsp] at h
        cases hrv : rvSection text with
        | error e => rw [hrv] at h; cases h
        | ok rv =>
          rw [hrv] at h
          cases h
          exact ⟨cham, ts, sp, rv, rfl, rfl, rfl, rfl, rfl⟩

theorem lookup_none_of_sections (cham ts sp rv : Measurements) (text : Str) (k : String)
    (hts : tissueSection text = Except.ok ts)
    (hsp : spectralSection text = Except.ok sp)
    (hrv : rvSection text = Except.ok rv)
    (hcham : ∀ p ∈ cham, p.1 ≠ k)
    (hk : ¬ k ∈ (["EDV", "ESV", "LVEF", "FS", "IVS", "e_velocity", "E_Med_E", "EDT",
      "E/A", "tr_velocity", "pg"] : List String)) :
    mlookup (cham ++ mmodeSection text ++ ts ++ sp ++ rv) k = none := by
  apply mlookup_eq_none_of_forall
  intro p hp hpk
  rcases List.mem_append.mp hp with hp4 | hprv
  · rcases List.mem_append.mp hp4 with hp3 | hpsp
    · rcases List.mem_append.mp hp3 with hp2 | hpts
      · rcases List.mem_append.mp hp2 with hpch | hpmm
        · exact hcham p hpch hpk
        · refine hk ?_
          subst hpk
          rcases mmodeSection_fst text p hpmm with h | h | h | h | h <;> rw [h] <;> decide
      · refine hk ?_
        subst hpk
        rcases tissueSection_fst text ts hts p hpts with h | h <;> rw [h] <;> decide
    · refine hk ?_
      subst hpk
      rcases spectralSection_fst text sp hsp p hpsp with h | h <;> rw [h] <;> decide
  · refine hk ?_
    subst hpk
    rcases rvSection_fst text rv hrv p hprv with h | h <;> rw [h] <;> decide

/-- Claim C9: four distance-with-unit matches are assigned positionally
as RA length, RA short axis, LA length, LA short axis; a single match in
a `2D/MM` context is recorded as the TAPSE displacement with no
chamber-size measurement produced. -/
theorem claim_C9 (text : Str) (m : Measurements) :
    (∀ a b c d : ℚ, floatListOfCaps (distanceCaps text) = Except.ok [a, b, c, d] →
      parseUltrasoundData text = Except.ok m →
      mlookup m "RA_length" = some a ∧ mlookup m "RA_short" = some b ∧
      mlookup m "LA_length" = some c ∧ mlookup m "LA_short" = some d) ∧
    (∀ a : ℚ, floatListOfCaps (distanceCaps text) = Except.ok [a] →
      "2D/MM".toList <:+: text →
      parseUltrasoundData text = Except.ok m →
      mlookup m "TAPSE_dist" = some a ∧
      mlookup m "RA_length" = none ∧ mlookup m "RA_short" = none ∧
      mlookup m "LA_length" = none ∧ mlookup m "LA_short" = none) := by
  constructor
  · intro a b c d h4 hm
    obtain ⟨cham, ts, sp, rv, hch, hts, hsp, hrv, rfl⟩ := parse_decomp text m hm
    have hch' : chamberMeasurements text =
        Except.ok [("RA_length", a), ("RA_short", b), ("LA_length", c), ("LA_short", d)] := by
      unfold chamberMeasurements
      rw [h4]
    have hcham : cham =
        [("RA_length", a), ("RA_short", b), ("LA_length", c), ("LA_short", d)] := by
      have := hch.symm.trans hch'
      exact Except.ok.inj this
    subst hcham
    refine ⟨?_, ?_, ?_, ?_⟩ <;>
      exact mlookup_append_of_some _ _ _ _ (mlookup_append_of_some _ _ _ _
        (mlookup_append_of_some _ _ _ _ (mlookup_append_of_some _ _ _ _ rfl)))
  · intro a h1 hmm hm
    obtain ⟨cham, ts, sp, rv, hch, hts, hsp, hrv, rfl⟩ := parse_decomp text m hm
    have hch' : chamberMeasurements text = Except.ok [("TAPSE_dist", a)] := by
      unfold chamberMeasurements
      rw [h1]
      show (if "2D/MM".toList <:+: text then Except.ok [("TAPSE_dist", a)]
        else Except.ok ([] : Measurements)) = Except.ok [("TAPSE_dist", a)]
      rw [if_pos hmm]
    have hcham : cham = [("TAPSE_dist", a)] := Except.ok.inj (hch.symm.trans hch')
    subst hcham
    refine ⟨mlookup_append_of_some _ _ _ _ (mlookup_append_of_some _ _ _ _
      (mlookup_append_of_some _ _ _ _ (mlookup_append_of_some _ _ _ _ rfl))),
      ?_, ?_, ?_, ?_⟩ <;>
    · refine lookup_none_of_sections _ ts sp rv text _ hts hsp hrv ?_ (by decide)
      intro p hp
      rw [List.mem_singleton.mp hp]
      simp

theorem searchCap_some (m : Str → Option Str) (text cap : Str)
    (h : searchCap m text = some cap) : ∃ s, s <:+ text ∧ m s = some cap := by
  induction text with
  | nil => cases h
  | cons c rest ih =>
    unfold searchCap at h
    cases hmc : m (c :: rest) with
    | some cap2 =>
      rw [hmc] at h
      cases h
      exact ⟨c :: rest, List.suffix_refl _, hmc⟩
    | none =>
      rw [hmc] at h
      obtain ⟨s, hs, hms⟩ := ih h
      exact ⟨s, hs.trans (List.suffix_cons c rest), hms⟩

theorem litNumAt_isPref (lit s cap : Str) (h : litNumAt lit s = some cap) :
    lit <+: s := by
  unfold litNumAt at h
  cases hd : dropLit lit s with
  | none => rw [hd] at h; cases h
  | some r =>
    unfold dropLit at hd
    split at hd
    · next hpref => exact List.isPrefixOf_iff_prefix.mp hpref
    · cases hd

theorem okAppend_lookup_right (e1 : Except PyErr Measurements)
    (l2 sp : Measurements) (k : String) (v : ℚ)
    (h : okAppend e1 (Except.ok l2) = Except.ok sp)
    (h1 : ∀ l1, e1 = Except.ok l1 → ∀ p ∈ l1, p.1 ≠ k)
    (h2 : mlookup l2 k = some v) :
    mlookup sp k = some v := by
  unfold okAppend at h
  cases e1 with
  | error e => cases h
  | ok a =>
    cases h
    rw [mlookup_append_of_none]
    · exact h2
    · exact mlookup_eq_none_of_forall a k (h1 a rfl)

/-- Claim C10: in the spectral-Doppler ruleset, when the primary E/A
pattern finds nothing but the looser `EJA <number>` fallback matches, the
parser still records the E/A measurement with the fallback's value —
fallback patterns run only after the primary fails. -/
theorem claim_C10 (text cap : Str) (v : ℚ) (m : Measurements)
    (hp : searchCap eaPrimaryAt text = none)
    (hf : searchCap (litNumAt "EJA".toList) text = some cap)
    (hv : pyFloat cap = some v)
    (hm : parseUltrasoundData text = Except.ok m) :
    mlookup m "E/A" = some v := by
  obtain ⟨cham, ts, sp, rv, hch, hts, hsp, hrv, rfl⟩ := parse_decomp text m hm
  have hEJA : "EJA".toList <:+: text := by
    obtain ⟨s, hs, hms⟩ := searchCap_some _ text cap hf
    exact List.infix_iff_prefix_suffix.mpr ⟨s, litNumAt_isPref _ s cap hms, hs⟩
  have hguard : (["Decel Time", "E/A", "EJA", "MV减速时间", "E／A"].any
      (fun g => decide (g.toList <:+: text))) = true :=
    List.any_eq_true.mpr ⟨"EJA", by decide, decide_eq_true hEJA⟩
  unfold spectralSection at hsp
  rw [hguard] at hsp
  simp only [if_true] at hsp
  simp only [hp, hf] at hsp
  simp only [capToMeas, hv] at hsp
  have hspl : mlookup sp "E/A" = some v := by
    refine okAppend_lookup_right _ _ sp "E/A" v hsp ?_ rfl
    intro l1 hl1 p hpmem
    rcases capToMeas_ok_cases _ _ _ hl1 with rfl | ⟨w, rfl⟩
    · cases hpmem
    · rw [List.mem_singleton.mp hpmem]
      simp
  have hcl : mlookup cham "E/A" = none := by
    apply mlookup_eq_none_of_forall
    intro p hpm hpk
    have := chamberMeasurements_fst text cham hch p hpm
    rw [hpk] at this
    rcases this with h | h | h | h | h <;> exact absurd h (by decide)
  have hmm : mlookup (mmodeSection text) "E/A" = none := by
    apply mlookup_eq_none_of_forall
    intro p hpm hpk
    have := mmodeSection_fst text p hpm
    rw [hpk] at this
    rcases this with h | h | h | h | h <;> exact absurd h (by decide)
  have htl : mlookup ts "E/A" = none := by
    apply mlookup_eq_none_of_forall
    intro p hpm hpk
    have := tissueSection_fst text ts hts p hpm
    rw [hpk] at this
    rcases this with h | h <;> exact absurd h (by decide)
  exact mlookup_append_of_some _ _ _ _
    (by rw [mlookup_append_of_none _ _ _
        (mlookup_append_none _ _ _ (mlookup_append_none _ _ _ hcl hmm) htl)]
        exact hspl)

/-- The concrete chamber-size text of the C9 witness (four distances). -/
def textC9a : Str := "Dist 4.5 cm Dist 3.0 cm Dist 4.2 cm Dist 3.3 cm".toList

/-- The concrete M-mode text of the C9 witness (one distance, `2D/MM`). -/
def textC9b : Str := "2D/MM Dist 1.8 cm".toList

/-- What the parser extracts from `textC9a`. -/
def mC9a : Measurements :=
  [("RA_length", decimalValue ['4'] ['5']), ("RA_short", decimalValue ['3'] ['0']),
   ("LA_length", decimalValue ['4'] ['2']), ("LA_short", decimalValue ['3'] ['3'])]

/-- What the parser extracts from `textC9b`. -/
def mC9b : Measurements := [("TAPSE_dist", decimalValue ['1'] ['8'])]

/-- Witness for C9 at the two concrete texts. -/
theorem claim_C9_witness :
    (mlookup mC9a "RA_length" = some (decimalValue ['4'] ['5']) ∧
     mlookup mC9a "RA_short" = some (decimalValue ['3'] ['0']) ∧
     mlookup mC9a "LA_length" = some (decimalValue ['4'] ['2']) ∧
     mlookup mC9a "LA_short" = some (decimalValue ['3'] ['3'])) ∧
    (mlookup mC9b "TAPSE_dist" = some (decimalValue ['1'] ['8']) ∧
     mlookup mC9b "RA_length" = none ∧ mlookup mC9b "RA_short" = none ∧
     mlookup mC9b "LA_length" = none ∧ mlookup mC9b "LA_short" = none) :=
  ⟨(claim_C9 textC9a mC9a).1 _ _ _ _ rfl rfl,
   (claim_C9 textC9b mC9b).2 _ rfl (by decide) rfl⟩

/-- Witness for C10: the text `EJA 1.5` has no `E/A` literal, yet E/A is
extracted as 1.5. -/
theorem claim_C10_witness :
    mlookup [("E/A", decimalValue ['1'] ['5'])] "E/A" =
      some (decimalValue ['1'] ['5']) ∧ decimalValue ['1'] ['5'] = 3 / 2 :=
  ⟨claim_C10 "EJA 1.5".toList "1.5".toList (decimalValue ['1'] ['5'])
      [("E/A", decimalValue ['1'] ['5'])] (by decide) (by decide) rfl rfl,
   by
     have h1 : digitsToNat ['1'] = 1 := by decide
     have h5 : digitsToNat ['5'] = 5 := by decide
     unfold decimalValue
     rw [h1, h5]
     norm_num⟩
